import Mathlib

/-! Verification of the adb-bluestacks-automation core against its
specification.  Each definition below is a shallow embedding of one Python
function of the repository (modules/scheduler.py, modules/device_manager.py,
modules/adb_manager.py, modules/action_executor.py,
modules/image_processor.py, modules/config_loader.py).  Calls that leave the
program (the adb binary, the filesystem, OpenCV's matchTemplate) enter the
embedding as explicit outcome parameters. -/

namespace Py

/-- Lookup in a Python dict modelled as an association list
(`d[k]` / `d.get(k)` / `k in d`). -/
def dictGet {α : Type} : List (String × α) → String → Option α
  | [], _ => none
  | (k, v) :: t, key => if k = key then some v else dictGet t key

/-- Assignment `d[k] = v`: replaces the value in place when the key exists,
appends otherwise (Python dicts keep first-insertion order). -/
def dictInsert {α : Type} (d : List (String × α)) (key : String) (v : α) :
    List (String × α) :=
  if (dictGet d key).isSome then
    d.map (fun p => if p.1 = key then (key, v) else p)
  else d ++ [(key, v)]

/-- Deletion `del d[k]`. -/
def dictErase {α : Type} : List (String × α) → String → List (String × α)
  | [], _ => []
  | (k, v) :: t, key =>
    if k = key then dictErase t key else (k, v) :: dictErase t key

/-- In-place mutation of the record stored at a key
(`d[k].field = v` on a dict of records); a missing key changes nothing. -/
def dictUpdate {α : Type} : List (String × α) → String → (α → α) → List (String × α)
  | [], _, _ => []
  | (k, v) :: t, key, f =>
    (if k = key then (k, f v) else (k, v)) :: dictUpdate t key f

/-- Python truthiness of an optional string (`if not s:`): `None` and the
empty string are falsy. -/
def truthy : Option String → Bool
  | none => false
  | some s => !s.isEmpty

/-- Python `a or b` where `a` is an optional string and `b` a default. -/
def pyOr (a : Option String) (b : String) : String :=
  if truthy a then a.getD "" else b

/-- The whitespace characters Python's `str.strip()` removes. -/
def isPySpace (c : Char) : Bool :=
  c = ' ' || c = '\t' || c = '\n' || c = '\r' || c = '\x0b' || c = '\x0c'

/-- Python `str.strip()` over the characters of the string. -/
def strip (l : List Char) : List Char :=
  ((l.dropWhile isPySpace).reverse.dropWhile isPySpace).reverse

/-- Python `str.split(sep)` for a one-character separator: `"a:b"` gives
`["a", "b"]`, `"abc"` gives `["abc"]`, `""` gives `[""]`. -/
def splitOn (sep : Char) : List Char → List (List Char)
  | [] => [[]]
  | c :: t =>
    match splitOn sep t with
    | h :: r => if c = sep then [] :: h :: r else (c :: h) :: r
    | [] => [[c]]

/-- Outcome of one call into a collaborator as the caller's `try/except
Exception` sees it: a returned value or a raised exception. -/
inductive CallResult (α : Type) where
  | ok (val : α)
  | exn
deriving DecidableEq, Repr

end Py

namespace Sched

/-- One clock sample of `Scheduler._scheduler_task` (scheduler.py lines
213-222).  The loop reads `datetime.now().minute`; when the minute is in
`run_minutes` and the previous minute `(m - 1) % 60` is not, it awaits
`run_automation()`.  Python's `(m - 1) % 60` on a minute `0 ≤ m < 60`
equals `(m + 59) % 60`. -/
def triggerFires (runMinutes : List Nat) (m : Nat) : Bool :=
  runMinutes.contains m && !(runMinutes.contains ((m + 59) % 60))

/-- Number of `run_automation` calls the trigger loop makes over a trace of
clock samples: `samples` lists the minute observed at each pass of the
`while self.running` loop taken while the scheduler is running and not
paused (a paused pass sleeps and skips the check; the loop sleeps 10
seconds between passes, so a full 60-second minute yields five or six
samples).  The loop keeps no per-minute latch: the rising-edge test is
re-evaluated at every sample. -/
def schedulerRuns (runMinutes : List Nat) (samples : List Nat) : Nat :=
  samples.countP (fun m => triggerFires runMinutes m)

end Sched

namespace DevMgr

/-- A device record as `DeviceManager.load_devices` builds it
(device_manager.py lines 127-138). -/
structure DeviceRec where
  id : String
  name : String
  ip : String
  port : String
  connected : Bool
  status : String
  lastConnectionAttempt : Nat
  connectionAttempts : Nat
  currentAction : Option String
  info : List (String × String)
deriving DecidableEq, Repr

/-- The per-line parse of `load_devices` (device_manager.py lines 110-138):
strip the line, skip it when blank or starting with `#`, split on `:`; a
line with at least two fields becomes a record keyed `ip:port`, with the
third field (when present) as display name; any other line yields
nothing. -/
def parseDeviceLine (line : String) : Option (String × DeviceRec) :=
  let l := Py.strip line.data
  if l.isEmpty || (l.headD ' ' == '#') then none
  else
    let parts := Py.splitOn ':' l
    if parts.length ≥ 2 then
      let ip : String := ⟨parts.headD []⟩
      let port : String := ⟨(parts.drop 1).headD []⟩
      let deviceId := ip ++ ":" ++ port
      let name :=
        if parts.length > 2 then (⟨(parts.drop 2).headD []⟩ : String)
        else "Устройство " ++ deviceId
      some (deviceId,
        { id := deviceId, name := name, ip := ip, port := port,
          connected := false, status := "Не подключено",
          lastConnectionAttempt := 0, connectionAttempts := 0,
          currentAction := none, info := [] })
    else none

/-- The device map built by `load_devices` from the roster file's lines:
each parsed line is assigned into the `self.devices` dict. -/
def loadDevices (lines : List String) : List (String × DeviceRec) :=
  lines.foldl
    (fun devs line =>
      match parseDeviceLine line with
      | some (deviceId, rec) => Py.dictInsert devs deviceId rec
      | none => devs)
    []

end DevMgr

namespace DevMgr

/-- The device map `self.devices` of one `DeviceManager`. -/
abbrev Devices := List (String × DeviceRec)

/-- Outcomes of the collaborator calls `connect_device` makes
(device_manager.py lines 251-315): the `ADBManager.connect_device` call
and, on success, the `ADBManager.get_device_info` call; `now` is the
`time.time()` read at line 269. -/
structure ConnectEnv where
  now : Nat
  adbConnect : Py.CallResult Bool
  adbInfo : Py.CallResult (List (String × String))
deriving DecidableEq, Repr

/-- Translation of `DeviceManager.connect_device` (device_manager.py lines
251-315).  An unknown id returns `False` untouched; otherwise the attempt
timestamp and counter are recorded first; on adb success the record turns
connected with freshly fetched info (the attempt counter is not reset
here); on adb failure, or an exception from either call, the record turns
disconnected with a failure status. -/
def connectDevice (env : ConnectEnv) (devices : Devices) (deviceId : String) :
    Bool × Devices :=
  match Py.dictGet devices deviceId with
  | none => (false, devices)
  | some _ =>
    let d1 := Py.dictUpdate devices deviceId (fun r =>
      { r with lastConnectionAttempt := env.now,
               connectionAttempts := r.connectionAttempts + 1 })
    match env.adbConnect with
    | .ok true =>
      match env.adbInfo with
      | .ok info =>
        (true, Py.dictUpdate d1 deviceId (fun r =>
          { r with connected := true, status := "Подключено", info := info }))
      | .exn =>
        (false, Py.dictUpdate d1 deviceId (fun r =>
          { r with connected := false, status := "Ошибка подключения" }))
    | .ok false =>
      (false, Py.dictUpdate d1 deviceId (fun r =>
        { r with connected := false, status := "Ошибка подключения" }))
    | .exn =>
      (false, Py.dictUpdate d1 deviceId (fun r =>
        { r with connected := false, status := "Ошибка подключения" }))

/-- Translation of `DeviceManager.disconnect_device` (device_manager.py
lines 317-361): unknown id returns `False` untouched; otherwise the record
is marked disconnected (and its action tag cleared) whatever the adb call
returned, and the call's boolean is passed through; an exception marks the
record with a distinct error status. -/
def disconnectDevice (adbDisc : Py.CallResult Bool) (devices : Devices)
    (deviceId : String) : Bool × Devices :=
  match Py.dictGet devices deviceId with
  | none => (false, devices)
  | some _ =>
    match adbDisc with
    | .ok b =>
      (b, Py.dictUpdate devices deviceId (fun r =>
        { r with connected := false, status := "Отключено", currentAction := none }))
    | .exn =>
      (false, Py.dictUpdate devices deviceId (fun r =>
        { r with connected := false, status := "Ошибка отключения" }))

/-- Translation of `DeviceManager.update_device_statuses` (device_manager.py
lines 218-249): every rostered device found in the adb device list with
state `device` becomes connected with its attempt counter reset to 0; any
other listed state, or absence from the list, marks it disconnected. -/
def updateDeviceStatuses (adbStates : List (String × String))
    (devices : Devices) : Devices :=
  devices.map (fun p =>
    match Py.dictGet adbStates p.1 with
    | some st =>
      if st = "device" then
        (p.1, { p.2 with connected := true, status := "Подключено",
                         connectionAttempts := 0 })
      else
        (p.1, { p.2 with connected := false, status := "Не готово (" ++ st ++ ")" })
    | none =>
      (p.1, { p.2 with connected := false, status := "Отключено" }))

/-- Translation of `DeviceManager.input_tap` (device_manager.py lines
695-743): unknown or disconnected device returns `False` untouched;
otherwise the action tag is set, the adb tap runs, and the tag is cleared
both on return and in the exception handler. -/
def inputTap (adbTap : Py.CallResult Bool) (devices : Devices)
    (deviceId : String) (x y : Int) (desc : Option String) : Bool × Devices :=
  match Py.dictGet devices deviceId with
  | none => (false, devices)
  | some rec =>
    if !rec.connected then (false, devices)
    else
      let description :=
        Py.pyOr desc ("Нажатие (" ++ toString x ++ ", " ++ toString y ++ ")")
      let d1 := Py.dictUpdate devices deviceId (fun r =>
        { r with currentAction := some description })
      let d2 := Py.dictUpdate d1 deviceId (fun r => { r with currentAction := none })
      match adbTap with
      | .ok b => (b, d2)
      | .exn => (false, d2)

/-- Translation of `DeviceManager.input_text` (device_manager.py lines
745-791), same shape as `input_tap`. -/
def inputText (adbText : Py.CallResult Bool) (devices : Devices)
    (deviceId : String) (desc : Option String) : Bool × Devices :=
  match Py.dictGet devices deviceId with
  | none => (false, devices)
  | some rec =>
    if !rec.connected then (false, devices)
    else
      let description := Py.pyOr desc "Ввод текста"
      let d1 := Py.dictUpdate devices deviceId (fun r =>
        { r with currentAction := some description })
      let d2 := Py.dictUpdate d1 deviceId (fun r => { r with currentAction := none })
      match adbText with
      | .ok b => (b, d2)
      | .exn => (false, d2)

/-- Translation of `DeviceManager.restart_app` (device_manager.py lines
647-693), same shape as `input_tap`. -/
def restartApp (adbRestart : Py.CallResult Bool) (devices : Devices)
    (deviceId : String) (packageName : String) (desc : Option String) :
    Bool × Devices :=
  match Py.dictGet devices deviceId with
  | none => (false, devices)
  | some rec =>
    if !rec.connected then (false, devices)
    else
      let description := Py.pyOr desc ("Перезапуск " ++ packageName)
      let d1 := Py.dictUpdate devices deviceId (fun r =>
        { r with currentAction := some description })
      let d2 := Py.dictUpdate d1 deviceId (fun r => { r with currentAction := none })
      match adbRestart with
      | .ok b => (b, d2)
      | .exn => (false, d2)

/-- Translation of `DeviceManager.take_screenshot` (device_manager.py lines
530-576): unknown or disconnected device returns `None` untouched;
otherwise the tag is set, the adb screenshot runs, and the tag is cleared
on the normal path and in the exception handler alike. -/
def takeScreenshotDM (adbShot : Py.CallResult (Option String))
    (devices : Devices) (deviceId : String) : Option String × Devices :=
  match Py.dictGet devices deviceId with
  | none => (none, devices)
  | some rec =>
    if !rec.connected then (none, devices)
    else
      let d1 := Py.dictUpdate devices deviceId (fun r =>
        { r with currentAction := some "Создание скриншота" })
      let d2 := Py.dictUpdate d1 deviceId (fun r => { r with currentAction := none })
      match adbShot with
      | .ok p => (p, d2)
      | .exn => (none, d2)

/-- Translation of `DeviceManager.execute_adb_command` (device_manager.py
lines 578-626): unknown id returns a failed tuple untouched; disconnected
likewise; otherwise the tag is set and cleared around the adb call when an
action description was given.  The text of a caught exception (`str(e)`)
is abstracted as a fixed string. -/
def executeAdbCommand (adbExec : Py.CallResult (Bool × String × String))
    (devices : Devices) (deviceId : String) (desc : Option String) :
    (Bool × String × String) × Devices :=
  match Py.dictGet devices deviceId with
  | none => ((false, "", "Устройство не найдено в списке"), devices)
  | some rec =>
    if !rec.connected then ((false, "", "Устройство не подключено"), devices)
    else
      let d1 :=
        if Py.truthy desc then
          Py.dictUpdate devices deviceId (fun r => { r with currentAction := desc })
        else devices
      let d2 :=
        if Py.truthy desc then
          Py.dictUpdate d1 deviceId (fun r => { r with currentAction := none })
        else d1
      match adbExec with
      | .ok out => (out, d2)
      | .exn => ((false, "", "исключение"), d2)

/-- A freshly loaded roster record for `127.0.0.1:5555`, as
`load_devices` creates it. -/
def rec5555 : DeviceRec :=
  { id := "127.0.0.1:5555", name := "Устройство 127.0.0.1:5555",
    ip := "127.0.0.1", port := "5555", connected := false,
    status := "Не подключено", lastConnectionAttempt := 0,
    connectionAttempts := 0, currentAction := none, info := [] }

/-- A one-device roster map used as a concrete input. -/
def devicesOne : Devices := [("127.0.0.1:5555", rec5555)]

/-- A connect environment whose adb calls succeed. -/
def connEnvOk : ConnectEnv :=
  { now := 100, adbConnect := .ok true, adbInfo := .ok [("model", "Pixel")] }

/-- A connect environment whose adb connect call returns failure. -/
def connEnvFail : ConnectEnv :=
  { now := 100, adbConnect := .ok false, adbInfo := .ok [] }

end DevMgr

namespace Adb

/-- The outcomes `ADBManager.take_screenshot` (adb_manager.py lines 559-609)
observes from its two bridge sub-calls: whether the on-device
`screencap -p` succeeded and whether the subsequent `adb pull` succeeded.
A Python exception inside a sub-call is caught by the `except` at line 607
and is observationally a failure of that sub-call for the fields modelled
here. -/
structure ScreenshotEnv where
  screencapOk : Bool
  pullOk : Bool
deriving DecidableEq, Repr

/-- What a run of `take_screenshot` did: the returned value, whether the
pull was attempted, and whether the `rm` of the remote temporary file was
issued before returning. -/
structure ScreenshotRun where
  result : Option String
  pullAttempted : Bool
  rmIssued : Bool
deriving DecidableEq, Repr

/-- Translation of `ADBManager.take_screenshot` (adb_manager.py lines
559-609): capture to a remote temporary path; on capture failure return
`None`; then pull; on pull failure return `None`; only then issue
`rm` of the remote file and return the local path. -/
def takeScreenshot (localPath : String) (env : ScreenshotEnv) : ScreenshotRun :=
  if !env.screencapOk then { result := none, pullAttempted := false, rmIssued := false }
  else if !env.pullOk then { result := none, pullAttempted := true, rmIssued := false }
  else { result := some localPath, pullAttempted := true, rmIssued := true }

end Adb

namespace Exec

/-- Outcome of calling a user hook or step handler as `execute_config` sees
it: a returned boolean or a raised exception. -/
inductive HandlerOutcome where
  | ok (b : Bool)
  | exn
deriving DecidableEq, Repr

/-- One entry of a script's `steps` list as `execute_config` reads it:
`step.get('name')`, `step.get('description')` and `step.get('action')`,
each possibly missing. -/
structure Step where
  name : Option String := none
  description : Option String := none
  action : Option String := none
deriving DecidableEq, Repr

/-- Everything `ActionExecutor.execute_config` (action_executor.py lines
64-372) observes from its collaborators on one run: the boolean
`validate_config` returned, whether `get_loaded_config` produced data,
whether the device is connected, the script module's hooks and handler
table (`hasattr`/`callable` checks), the script's `steps` and
`enabled_steps`, and each step handler's outcome.  The run is taken with
the executor running throughout, the pause gate open and no task
cancellation (those paths are concurrency events outside this model). -/
structure ConfigEnv where
  validConfig : Bool
  configLoaded : Bool
  deviceConnected : Bool
  hasInitHook : Bool
  initHookOutcome : HandlerOutcome
  steps : List Step
  enabledSteps : List (String × Bool)
  hasHandler : String → Bool
  handlerCallable : String → Bool
  handlerOutcome : Nat → HandlerOutcome
  hasFinalizeHook : Bool

/-- The observables of one `execute_config` run: the returned boolean, which
hooks ran (`finalizeCalledWith` holds the `success` argument passed to
`finalize`), the indices of the steps whose handler was invoked, and the
device's action tag when the call returns (the tag starts clear). -/
structure ConfigRunResult where
  success : Bool
  initHookCalled : Bool
  finalizeCalledWith : Option Bool
  handlersCalled : List Nat
  finalTag : Option String
deriving DecidableEq, Repr

/-- The step loop of `execute_config` (action_executor.py lines 222-300):
returns the loop's `success` flag and the indices of invoked handlers.  A
step whose name maps to `False` in `enabled_steps` is skipped; a missing
action name, a handler missing from the module, or a non-callable handler
breaks with failure before any call; a handler returning `False` or
raising breaks with failure after its call. -/
def runStepsFrom (env : ConfigEnv) : Nat → List Step → List Nat → Bool × List Nat
  | _, [], called => (true, called.reverse)
  | i, step :: rest, called =>
    let stepName := step.name.getD ("Шаг " ++ toString (i + 1))
    if Py.dictGet env.enabledSteps stepName = some false then
      runStepsFrom env (i + 1) rest called
    else if !Py.truthy step.action then (false, called.reverse)
    else
      let actionName := step.action.getD ""
      if !env.hasHandler actionName then (false, called.reverse)
      else if !env.handlerCallable actionName then (false, called.reverse)
      else
        match env.handlerOutcome i with
        | .ok true => runStepsFrom env (i + 1) rest (i :: called)
        | .ok false => (false, (i :: called).reverse)
        | .exn => (false, (i :: called).reverse)

/-- The part of `execute_config` from the `steps` read (action_executor.py
line 187) to the return: an empty list warns, still calls `finalize` with
`False` when present, and returns `False`; a non-empty list runs the step
loop, clears the action tag, and calls `finalize` with the loop's
result. -/
def executeConfigSteps (env : ConfigEnv) : ConfigRunResult :=
  if env.steps.isEmpty then
    { success := false, initHookCalled := env.hasInitHook,
      finalizeCalledWith := if env.hasFinalizeHook then some false else none,
      handlersCalled := [], finalTag := none }
  else
    let r := runStepsFrom env 0 env.steps []
    { success := r.1, initHookCalled := env.hasInitHook,
      finalizeCalledWith := if env.hasFinalizeHook then some r.1 else none,
      handlersCalled := r.2, finalTag := none }

/-- Translation of `ActionExecutor.execute_config` (action_executor.py lines
64-372): failed validation, missing config data, or a disconnected device
return `False` before any hook; a present `initialize` hook that returns
`False` or raises returns `False` with no step run and no `finalize`; then
the steps part runs. -/
def executeConfig (env : ConfigEnv) : ConfigRunResult :=
  if !env.validConfig then
    { success := false, initHookCalled := false, finalizeCalledWith := none,
      handlersCalled := [], finalTag := none }
  else if !env.configLoaded then
    { success := false, initHookCalled := false, finalizeCalledWith := none,
      handlersCalled := [], finalTag := none }
  else if !env.deviceConnected then
    { success := false, initHookCalled := false, finalizeCalledWith := none,
      handlersCalled := [], finalTag := none }
  else if env.hasInitHook then
    match env.initHookOutcome with
    | .ok true => executeConfigSteps env
    | .ok false =>
      { success := false, initHookCalled := true, finalizeCalledWith := none,
        handlersCalled := [], finalTag := none }
    | .exn =>
      { success := false, initHookCalled := true, finalizeCalledWith := none,
        handlersCalled := [], finalTag := none }
  else executeConfigSteps env

/-- A concrete environment for a valid, loaded, connected run of a script
with hooks and an empty `steps` list. -/
def envEmptySteps : ConfigEnv :=
  { validConfig := true, configLoaded := true, deviceConnected := true,
    hasInitHook := true, initHookOutcome := .ok true, steps := [],
    enabledSteps := [], hasHandler := fun _ => true,
    handlerCallable := fun _ => true, handlerOutcome := fun _ => .ok true,
    hasFinalizeHook := true }

/-- Outcome of one awaited sub-call inside `execute_action` as its handlers
see it: a returned value, a raised exception (caught by `except Exception`
at line 715), or an asyncio cancellation (caught by
`except asyncio.CancelledError` at line 706). -/
inductive Outcome (α : Type) where
  | ok (val : α)
  | exn
  | cancel
deriving DecidableEq, Repr

/-- One action dict as `execute_action` reads it, with Python's `get`
defaults. -/
structure Action where
  type : Option String := none
  description : Option String := none
  template : Option String := none
  text : Option String := none
  timeout : Nat := 30
  threshold : Option String := none
  x1 : Int := 0
  y1 : Int := 0
  x2 : Int := 0
  y2 : Int := 0
  keycode : Option Nat := none
  package : Option String := none
  command : Option String := none
  x : Int := 0
  y : Int := 0
  duration : Nat := 1
  waitAfter : Nat := 0
deriving DecidableEq, Repr

/-- Python truthiness of an optional integer (`if not keycode:`). -/
def truthyNat : Option Nat → Bool
  | none => false
  | some n => n != 0

/-- The outcomes `execute_action` (action_executor.py lines 437-725)
observes from its collaborators.  The Device Manager sub-calls
(`take_screenshot`, `input_tap`, `input_text`, `restart_app`,
`execute_shell_command`) each set the device's action tag to their own
label and clear it again before returning, so after any one of them has
returned normally the tag is clear; `findCenter` abstracts a successful
`find_template` down to the center `get_template_center` yields. -/
structure ActionEnv where
  deviceConnected : Bool
  screenshotResult : Outcome (Option String)
  loadImageOk : Bool
  findCenter : Option (Int × Int)
  tapOutcome : Outcome Bool
  textOutcome : Outcome Bool
  waitOutcome : Outcome Bool
  restartOutcome : Outcome Bool
  shellOutcome : Outcome (Bool × String × String)
deriving DecidableEq, Repr

/-- The observables of one `execute_action` run: the returned boolean and
the device's action tag at the moment the call returns (the tag starts
clear). -/
structure ActionRunResult where
  result : Bool
  tag : Option String
deriving DecidableEq, Repr

/-- Translation of `ActionExecutor.execute_action` (action_executor.py lines
437-725).  The action tag is set to the action's description at line 479,
before the dispatch on `action['type']`; the early `return False` branches
for missing parameters leave it set, while every branch that reaches a
Device Manager sub-call, the common reset at line 697, or one of the two
exception handlers returns with the tag clear.  The `swipe` and `keyevent`
branches subscript the un-awaited coroutine (`await dm.…(…)[0]`, lines
601-605 and 620-624), so when their parameters pass the check they raise
`TypeError`, which the handler at line 715 turns into a cleared tag and
`False`. -/
def executeAction (env : ActionEnv) (act : Action) : ActionRunResult :=
  if !env.deviceConnected then { result := false, tag := none }
  else if !Py.truthy act.type then { result := false, tag := none }
  else
    let actionType := act.type.getD ""
    let description := act.description.getD ("Действие " ++ actionType)
    if actionType = "click_image" then
      if !Py.truthy act.template then { result := false, tag := some description }
      else
        match env.screenshotResult with
        | .exn => { result := false, tag := none }
        | .cancel => { result := false, tag := none }
        | .ok none => { result := false, tag := none }
        | .ok (some _) =>
          if !env.loadImageOk then { result := false, tag := none }
          else
            match env.findCenter with
            | none => { result := false, tag := none }
            | some _ =>
              match env.tapOutcome with
              | .ok b => { result := b, tag := none }
              | .exn => { result := false, tag := none }
              | .cancel => { result := false, tag := none }
    else if actionType = "input_text" then
      match env.textOutcome with
      | .ok b => { result := b, tag := none }
      | .exn => { result := false, tag := none }
      | .cancel => { result := false, tag := none }
    else if actionType = "wait_image" then
      if !Py.truthy act.template then { result := false, tag := some description }
      else
        match env.waitOutcome with
        | .ok found => { result := found, tag := none }
        | .exn => { result := false, tag := none }
        | .cancel => { result := false, tag := none }
    else if actionType = "swipe" then
      if act.x1 = 0 ∧ act.y1 = 0 ∧ act.x2 = 0 ∧ act.y2 = 0 then
        { result := false, tag := some description }
      else { result := false, tag := none }
    else if actionType = "keyevent" then
      if !truthyNat act.keycode then { result := false, tag := some description }
      else { result := false, tag := none }
    else if actionType = "sleep" then { result := true, tag := none }
    else if actionType = "restart_app" then
      if !Py.truthy act.package then { result := false, tag := some description }
      else
        match env.restartOutcome with
        | .ok b => { result := b, tag := none }
        | .exn => { result := false, tag := none }
        | .cancel => { result := false, tag := none }
    else if actionType = "shell_command" then
      if !Py.truthy act.command then { result := false, tag := some description }
      else
        match env.shellOutcome with
        | .ok out => { result := out.1, tag := none }
        | .exn => { result := false, tag := none }
        | .cancel => { result := false, tag := none }
    else if actionType = "tap" then
      if act.x = 0 ∧ act.y = 0 then { result := false, tag := some description }
      else
        match env.tapOutcome with
        | .ok b => { result := b, tag := none }
        | .exn => { result := false, tag := none }
        | .cancel => { result := false, tag := none }
    else { result := false, tag := none }

/-- A concrete environment with the device connected and every sub-call
succeeding. -/
def envConnected : ActionEnv :=
  { deviceConnected := true, screenshotResult := .ok (some "s.png"),
    loadImageOk := true, findCenter := some (100, 200), tapOutcome := .ok true,
    textOutcome := .ok true, waitOutcome := .ok true, restartOutcome := .ok true,
    shellOutcome := .ok (true, "", "") }

/-- A `shell_command` action with no `command` key. -/
def actShellNoCommand : Action := { type := some "shell_command" }

end Exec

namespace Img

/-- The score matrix `cv2.matchTemplate` returns, row major; for an `H×W`
screenshot and a `h×w` template it has `H-h+1` rows of `W-w+1` columns.
`matchTemplate` itself is the external image routine the specification
scopes out, so the matrix enters the embedding as an input.  Scores are
modelled as rationals: `find_all_templates` only compares them and zeroes
them. -/
abbrev ScoreMat := List (List ℚ)

/-- Map with the element's index, starting at `i`. -/
def mapWithIdx {α β : Type} (f : Nat → α → β) : Nat → List α → List β
  | _, [] => []
  | i, a :: t => f i a :: mapWithIdx f (i + 1) t

/-- The entry of a score matrix at row `r`, column `c` (0 outside). -/
def entryAt (res : ScoreMat) (r c : Nat) : ℚ :=
  ((res.getD r []).getD c 0)

/-- A Python/numpy slice bound normalized against a length: a negative
index counts from the end, and bounds clamp to `[0, n]`. -/
def npNorm (i : Int) (n : Nat) : Nat :=
  if i < 0 then ((n : Int) + i).toNat else min i.toNat n

/-- The numpy slice assignment `res[r0:r1, c0:c1] = 0` on a score
matrix. -/
def sliceAssignZero (res : ScoreMat) (r0 r1 c0 c1 : Int) : ScoreMat :=
  mapWithIdx
    (fun r row =>
      if npNorm r0 res.length ≤ r ∧ r < npNorm r1 res.length then
        mapWithIdx
          (fun c v =>
            if npNorm c0 row.length ≤ c ∧ c < npNorm c1 row.length then (0 : ℚ)
            else v)
          0 row
      else row)
    0 res

/-- The suppression `find_all_templates` performs after recording a match
at `(x, y)` (image_processor.py line 290):
`result[y-h//2 : y+h//2+h, x-w//2 : x+w//2+w] = 0`. -/
def suppressFound (res : ScoreMat) (x y w h : Nat) : ScoreMat :=
  sliceAssignZero res
    ((y : Int) - ((h / 2 : Nat) : Int)) ((y : Int) + ((h / 2 : Nat) : Int) + (h : Int))
    ((x : Int) - ((w / 2 : Nat) : Int)) ((x : Int) + ((w / 2 : Nat) : Int) + (w : Int))

/-- Modelled from the claim's words, for comparison with `suppressFound`:
a `w×h` region centered on the match, rows `y-h/2 ..` of height `h`,
columns `x-w/2 ..` of width `w`. -/
def suppressClaimed (res : ScoreMat) (x y w h : Nat) : ScoreMat :=
  sliceAssignZero res
    ((y : Int) - ((h / 2 : Nat) : Int)) ((y : Int) - ((h / 2 : Nat) : Int) + (h : Int))
    ((x : Int) - ((w / 2 : Nat) : Int)) ((x : Int) - ((w / 2 : Nat) : Int) + (w : Int))

/-- The scan of one row `cv2.minMaxLoc` performs, carried over a running
best `(value, x, y)`; a strictly greater value replaces the best, so ties
keep the first location in row-major order. -/
def scanRow (r : Nat) (row : List ℚ) (best : ℚ × Nat × Nat) : ℚ × Nat × Nat :=
  (mapWithIdx (fun c v => (c, v)) 0 row).foldl
    (fun b p => if p.2 > b.1 then (p.2, p.1, r) else b) best

/-- The maximum half of `cv2.minMaxLoc` on the score matrix: the best value
with its location `(x, y)` = (column, row), first occurrence in row-major
order. -/
def minMaxLocMax (res : ScoreMat) : ℚ × Nat × Nat :=
  (mapWithIdx (fun r row => (r, row)) 0 res).foldl
    (fun b p => scanRow p.1 p.2 b) (entryAt res 0 0, 0, 0)

/-- The `while count < max_results` loop of `find_all_templates`
(image_processor.py lines 276-290), with the remaining count as fuel:
locate the best score, stop below the threshold, otherwise record
`(x, y, w, h, score)` and suppress with the code's region. -/
def findAllLoop (thr : ℚ) (w h : Nat) :
    Nat → ScoreMat → List (Nat × Nat × Nat × Nat × ℚ) →
      List (Nat × Nat × Nat × Nat × ℚ)
  | 0, _, acc => acc.reverse
  | fuel + 1, res, acc =>
    let best := minMaxLocMax res
    if best.1 < thr then acc.reverse
    else
      findAllLoop thr w h fuel (suppressFound res best.2.1 best.2.2 w h)
        ((best.2.1, best.2.2, w, h, best.1) :: acc)

/-- Translation of `ImageProcessor.find_all_templates` (image_processor.py
lines 236-302) after the template (of size `w×h`) has loaded and
`cv2.matchTemplate` has produced `res`. -/
def findAllTemplates (res : ScoreMat) (w h : Nat) (thr : ℚ) (maxResults : Nat) :
    List (Nat × Nat × Nat × Nat × ℚ) :=
  findAllLoop thr w h maxResults res []

/-- The same loop with the claim's `w×h` centered suppression in place of
the code's, for comparison. -/
def findAllClaimedLoop (thr : ℚ) (w h : Nat) :
    Nat → ScoreMat → List (Nat × Nat × Nat × Nat × ℚ) →
      List (Nat × Nat × Nat × Nat × ℚ)
  | 0, _, acc => acc.reverse
  | fuel + 1, res, acc =>
    let best := minMaxLocMax res
    if best.1 < thr then acc.reverse
    else
      findAllClaimedLoop thr w h fuel (suppressClaimed res best.2.1 best.2.2 w h)
        ((best.2.1, best.2.2, w, h, best.1) :: acc)

/-- The iterative search as the claim describes it. -/
def findAllClaimed (res : ScoreMat) (w h : Nat) (thr : ℚ) (maxResults : Nat) :
    List (Nat × Nat × Nat × Nat × ℚ) :=
  findAllClaimedLoop thr w h maxResults res []

/-- A 5×5 score matrix with the best score at `(x, y) = (1, 1)` and a
second score at `(3, 3)`. -/
def exampleMat : ScoreMat :=
  [[0, 0, 0, 0, 0],
   [0, 10, 0, 0, 0],
   [0, 0, 0, 0, 0],
   [0, 0, 0, 9, 0],
   [0, 0, 0, 0, 0]]

end Img

namespace Store

/-- Translation of `ConfigLoader.load_config` (config_loader.py lines
66-124) over the cache `self.loaded_configs`: an already cached name is
returned as is; otherwise `fromDisk` stands for the outcome of the
filesystem and import work (lines 82-109: `None` when the file is missing,
fails to import, lacks `CONFIG`, or `CONFIG` is not a dict), and a loaded
entry is cached. -/
def loadConfig {α : Type} (store : List (String × α)) (fromDisk : Option α)
    (name : String) : Option α × List (String × α) :=
  match Py.dictGet store name with
  | some e => (some e, store)
  | none =>
    match fromDisk with
    | some e => (some e, Py.dictInsert store name e)
    | none => (none, store)

/-- Translation of `ConfigLoader.reload_config` (config_loader.py lines
790-815): the cached entry is deleted first (lines 802-803), then
`load_config` runs; its result decides the returned boolean. -/
def reloadConfig {α : Type} (store : List (String × α)) (fromDisk : Option α)
    (name : String) : Bool × List (String × α) :=
  let store1 := Py.dictErase store name
  match loadConfig store1 fromDisk name with
  | (some _, store2) => (true, store2)
  | (none, store2) => (false, store2)

/-- A Python value as the validation code inspects it. -/
inductive PyVal where
  | pyNone
  | pyBool (b : Bool)
  | pyInt (n : Int)
  | pyStr (s : String)
  | pyList (xs : List PyVal)
  | pyDict (entries : List (String × PyVal))

/-- Python `isinstance(v, list)`. -/
def isPyList : PyVal → Bool
  | .pyList _ => true
  | _ => false

/-- Python `isinstance(v, dict)`. -/
def isPyDict : PyVal → Bool
  | .pyDict _ => true
  | _ => false

/-- Translation of `ConfigLoader.validate_config` (config_loader.py lines
380-435) on a loaded script's `CONFIG` dict: both required fields
`actions` and `steps` must be present and be lists, and `enabled_steps`,
when present, must be a dict; the `next_config` existence check (lines
426-429) only warns and does not affect the verdict. -/
def validateConfig (config : List (String × PyVal)) : Bool :=
  match Py.dictGet config "actions" with
  | none => false
  | some actions =>
    match Py.dictGet config "steps" with
    | none => false
    | some steps =>
      if !isPyList actions then false
      else if !isPyList steps then false
      else
        match Py.dictGet config "enabled_steps" with
        | some enabled => isPyDict enabled
        | none => true

end Store

/-- C1: the claim says the trigger loop initiates exactly one automatic run
per 60-second window whose minute `m` is in `M` with `m-1 ∉ M`.  The code
(scheduler.py lines 207-225) keeps no latch: with `run_minutes = [5]` and
the six 10-second samples a full minute-5 window contains, the loop calls
`run_automation` six times, not once. -/
theorem scheduler_fires_once_per_sample :
    Sched.schedulerRuns [5] [5, 5, 5, 5, 5, 5] = 6 ∧
      Sched.schedulerRuns [5] [5, 5, 5, 5, 5, 5] ≠ 1 := by decide

/-- C3 counterexample: the claim says the remote temporary file is removed
even when the pull fails; in the code the `rm` (adb_manager.py line 602) is
only reached after a successful pull, so a run with a successful capture
and a failed pull returns without issuing it. -/
theorem screenshot_pull_failure_skips_rm :
    (Adb.takeScreenshot "s.png"
        { screencapOk := true, pullOk := false }).rmIssued = false := by decide

/-- C3 amended: when the on-device capture succeeds, the remote temporary
file is removed exactly when the pull succeeds; a failed pull returns
`None` and leaves the remote file on the device. -/
theorem screenshot_rm_iff_pull_ok (localPath : String) (env : Adb.ScreenshotEnv)
    (hcap : env.screencapOk = true) :
    (Adb.takeScreenshot localPath env).rmIssued = env.pullOk ∧
      (env.pullOk = false → (Adb.takeScreenshot localPath env).result = none) := by
  obtain ⟨cap, pull⟩ := env
  cases cap <;> cases pull <;> simp_all [Adb.takeScreenshot]

/-- Witness for the C3 amended theorem at a concrete input. -/
theorem screenshot_rm_iff_pull_ok_witness :
    (Adb.takeScreenshot "s.png"
        { screencapOk := true, pullOk := true }).rmIssued =
      (Adb.ScreenshotEnv.mk true true).pullOk :=
  (screenshot_rm_iff_pull_ok "s.png" { screencapOk := true, pullOk := true } rfl).1

/-- C4 counterexample: the claim says a bare local serial line becomes a key
of the device map; `load_devices` (device_manager.py line 117) only keeps
lines whose `split(':')` has at least two parts, so the line
`emulator-5554` produces no record at all. -/
theorem roster_bare_serial_dropped :
    DevMgr.loadDevices ["emulator-5554"] = [] ∧
      Py.dictGet (DevMgr.loadDevices ["emulator-5554"]) "emulator-5554" = none := by
  constructor <;> decide

/-- C4 amended: a non-comment, non-blank roster line containing no colon
(a bare local serial) is silently dropped by `load_devices`: it yields no
device record. -/
theorem roster_line_without_colon_dropped (line : String)
    (hne : (Py.strip line.data).isEmpty = false)
    (hcomment : ((Py.strip line.data).headD ' ' == '#') = false)
    (hnocolon : (Py.splitOn ':' (Py.strip line.data)).length = 1) :
    DevMgr.parseDeviceLine line = none := by
  unfold DevMgr.parseDeviceLine
  simp [hne, hcomment, hnocolon]

/-- Witness for the C4 amended theorem at a concrete input. -/
theorem roster_line_without_colon_dropped_witness :
    DevMgr.parseDeviceLine "emulator-5554" = none :=
  roster_line_without_colon_dropped "emulator-5554" (by decide) (by decide) (by decide)

/-- Lookup after an in-place value update: updating key `k` maps the stored
value, leaving presence untouched. -/
theorem dictGet_dictUpdate {α : Type} (d : List (String × α)) (k : String)
    (f : α → α) : Py.dictGet (Py.dictUpdate d k f) k = (Py.dictGet d k).map f := by
  induction d with
  | nil => rfl
  | cons p t ih =>
    obtain ⟨k', v⟩ := p
    by_cases h : k' = k
    · simp only [Py.dictUpdate, if_pos h]
      simp [Py.dictGet, h]
    · simp only [Py.dictUpdate, if_neg h]
      simp [Py.dictGet, h, ih]

/-- Lookup of a deleted key yields nothing. -/
theorem dictGet_dictErase_self {α : Type} (d : List (String × α)) (k : String) :
    Py.dictGet (Py.dictErase d k) k = none := by
  induction d with
  | nil => rfl
  | cons p t ih =>
    obtain ⟨k', v⟩ := p
    by_cases h : k' = k
    · simp only [Py.dictErase, if_pos h]
      exact ih
    · simp only [Py.dictErase, if_neg h]
      simp [Py.dictGet, h, ih]

/-- Deleting one key leaves every other key's binding unchanged. -/
theorem dictGet_dictErase_other {α : Type} (d : List (String × α)) (k other : String)
    (h : other ≠ k) : Py.dictGet (Py.dictErase d k) other = Py.dictGet d other := by
  induction d with
  | nil => rfl
  | cons p t ih =>
    obtain ⟨k', v⟩ := p
    by_cases hp : k' = k
    · have hne : ¬ (k' = other) := by rw [hp]; exact fun he => h he.symm
      simp only [Py.dictErase, if_pos hp]
      simp [Py.dictGet, hne, ih]
    · simp only [Py.dictErase, if_neg hp]
      by_cases ho : k' = other <;> simp [Py.dictGet, ho, ih]

/-- C2 counterexample: the claim says an empty step list completes with
overall success true; `execute_config` (action_executor.py lines 186-209)
warns, calls `finalize` with `False`, and returns `False` on an empty step
list, even for a valid, loaded script on a connected device whose
`initialize` hook succeeded. -/
theorem empty_steps_returns_false :
    (Exec.executeConfig Exec.envEmptySteps).success = false ∧
      Exec.executeConfig Exec.envEmptySteps =
        { success := false, initHookCalled := true, finalizeCalledWith := some false,
          handlersCalled := [], finalTag := none } :=
  ⟨rfl, rfl⟩

/-- C2 amended: a valid, loaded script with an empty step list, run against
a connected device, completes with success `false`; no step handler is
called, the `initialize` hook (when present and not failing) still runs,
and the `finalize` hook (when present) still runs, receiving `False`. -/
theorem empty_steps_run_amended (env : Exec.ConfigEnv)
    (hv : env.validConfig = true) (hl : env.configLoaded = true)
    (hc : env.deviceConnected = true)
    (hi : env.hasInitHook = false ∨ env.initHookOutcome = .ok true)
    (hs : env.steps = []) :
    Exec.executeConfig env =
      { success := false, initHookCalled := env.hasInitHook,
        finalizeCalledWith := if env.hasFinalizeHook then some false else none,
        handlersCalled := [], finalTag := none } := by
  rcases hi with hi | hi
  · simp [Exec.executeConfig, Exec.executeConfigSteps, hv, hl, hc, hs, hi]
  · cases hih : env.hasInitHook <;>
      simp [Exec.executeConfig, Exec.executeConfigSteps, hv, hl, hc, hs, hih, hi]

/-- Witness for the C2 amended theorem at a concrete input. -/
theorem empty_steps_run_amended_witness :
    Exec.executeConfig Exec.envEmptySteps =
      { success := false, initHookCalled := Exec.envEmptySteps.hasInitHook,
        finalizeCalledWith :=
          if Exec.envEmptySteps.hasFinalizeHook then some false else none,
        handlersCalled := [], finalTag := none } :=
  empty_steps_run_amended Exec.envEmptySteps rfl rfl rfl (Or.inr rfl) rfl

/-- C6 counterexample: the claim says a successful `connect_device` call
resets the consecutive-attempt counter to 0; the code (device_manager.py
lines 267-292) increments it at the start of the call and never resets
it on the success path, so a fresh device connecting successfully ends
with counter 1. -/
theorem connect_success_keeps_attempt_count :
    (DevMgr.connectDevice DevMgr.connEnvOk DevMgr.devicesOne "127.0.0.1:5555").1 = true ∧
    (Py.dictGet (DevMgr.connectDevice DevMgr.connEnvOk DevMgr.devicesOne
          "127.0.0.1:5555").2 "127.0.0.1:5555").map DevMgr.DeviceRec.connectionAttempts =
        some 1 ∧
    (Py.dictGet (DevMgr.connectDevice DevMgr.connEnvOk DevMgr.devicesOne
          "127.0.0.1:5555").2 "127.0.0.1:5555").map DevMgr.DeviceRec.connectionAttempts ≠
        some 0 := by
  refine ⟨rfl, rfl, ?_⟩
  decide

/-- C6 amended: for a rostered device, `connect_device` first records the
attempt timestamp and increments the attempt counter; on success the
record becomes connected, with status `Подключено` and freshly fetched
info, the counter staying at its incremented value (the reset to 0 happens
only in `update_device_statuses`, when the adb device list reports state
`device`); on failure the record becomes disconnected. -/
theorem connect_device_transition (env : DevMgr.ConnectEnv)
    (devices : DevMgr.Devices) (deviceId : String) (rec : DevMgr.DeviceRec)
    (info : List (String × String))
    (hmem : Py.dictGet devices deviceId = some rec) :
    (env.adbConnect = .ok true → env.adbInfo = .ok info →
      (DevMgr.connectDevice env devices deviceId).1 = true ∧
      Py.dictGet (DevMgr.connectDevice env devices deviceId).2 deviceId =
        some { rec with lastConnectionAttempt := env.now,
                        connectionAttempts := rec.connectionAttempts + 1,
                        connected := true, status := "Подключено",
                        info := info }) ∧
    (env.adbConnect = .ok false →
      (DevMgr.connectDevice env devices deviceId).1 = false ∧
      Py.dictGet (DevMgr.connectDevice env devices deviceId).2 deviceId =
        some { rec with lastConnectionAttempt := env.now,
                        connectionAttempts := rec.connectionAttempts + 1,
                        connected := false,
                        status := "Ошибка подключения" }) ∧
    (Py.dictGet (DevMgr.connectDevice env devices deviceId).2 deviceId).map
        DevMgr.DeviceRec.connectionAttempts = some (rec.connectionAttempts + 1) := by
  refine ⟨?_, ?_, ?_⟩
  · intro hok hinfo
    simp [DevMgr.connectDevice, hmem, hok, hinfo, dictGet_dictUpdate]
  · intro hfail
    simp [DevMgr.connectDevice, hmem, hfail, dictGet_dictUpdate]
  · rcases hconn : env.adbConnect with b | _
    · cases b
      · simp [DevMgr.connectDevice, hmem, hconn, dictGet_dictUpdate]
      · rcases hinfo : env.adbInfo with i | _ <;>
          simp [DevMgr.connectDevice, hmem, hconn, hinfo, dictGet_dictUpdate]
    · simp [DevMgr.connectDevice, hmem, hconn, dictGet_dictUpdate]

/-- Witness for the C6 amended theorem at a concrete input. -/
theorem connect_device_transition_witness :
    (Py.dictGet (DevMgr.connectDevice DevMgr.connEnvFail DevMgr.devicesOne
        "127.0.0.1:5555").2 "127.0.0.1:5555").map DevMgr.DeviceRec.connectionAttempts =
      some (DevMgr.rec5555.connectionAttempts + 1) :=
  (connect_device_transition DevMgr.connEnvFail DevMgr.devicesOne "127.0.0.1:5555"
    DevMgr.rec5555 [] rfl).2.2

/-- C7 counterexample: the claim says a failed reload leaves the store's
state unchanged, the old entry still retrievable; `reload_config`
(config_loader.py lines 802-806) deletes the cached entry before calling
`load_config`, so when the file no longer loads the entry is gone. -/
theorem failed_reload_loses_entry :
    (Store.reloadConfig [("alpha", (1 : Nat))] none "alpha").1 = false ∧
      Py.dictGet (Store.reloadConfig [("alpha", (1 : Nat))] none "alpha").2 "alpha" =
        none := by
  refine ⟨rfl, rfl⟩

/-- C7 amended: a reload whose file no longer loads returns `False` having
removed the cached entry for that name (lookups of the name now yield
nothing); entries under every other name are unchanged. -/
theorem reload_failure_state (α : Type) (store : List (String × α)) (name : String) :
    (Store.reloadConfig store none name).1 = false ∧
    Py.dictGet (Store.reloadConfig store none name).2 name = none ∧
    ∀ other : String, other ≠ name →
      Py.dictGet (Store.reloadConfig store none name).2 other =
        Py.dictGet store other := by
  have hself := dictGet_dictErase_self store name
  refine ⟨?_, ?_, ?_⟩
  · simp [Store.reloadConfig, Store.loadConfig, hself]
  · simp [Store.reloadConfig, Store.loadConfig, hself]
  · intro other hne
    simp [Store.reloadConfig, Store.loadConfig, hself,
      dictGet_dictErase_other store name other hne]

/-- C8: the claim says every operation that sets the device's action tag
clears it on every exit path.  `execute_action` (action_executor.py) sets
the tag at line 479 and then, for a `shell_command` action with no
`command` key, returns `False` at line 659 with the tag still set. -/
theorem action_tag_left_set_on_missing_command :
    Exec.executeAction Exec.envConnected Exec.actShellNoCommand =
      { result := false, tag := some "Действие shell_command" } := by
  decide

/-- C9 counterexample: the claim says a loadable script with an empty step
list is invalid; `validate_config` (config_loader.py lines 399-431) only
checks that `actions` and `steps` exist and are lists, so a config with
both present and empty validates as `True`. -/
theorem validate_accepts_empty_steps :
    Store.validateConfig [("actions", .pyList []), ("steps", .pyList [])] = true := by
  decide

/-- Lists are the values `isinstance(v, list)` accepts. -/
theorem isPyList_iff (v : Store.PyVal) :
    Store.isPyList v = true ↔ ∃ xs, v = Store.PyVal.pyList xs := by
  cases v <;> simp [Store.isPyList]

/-- C9 amended: `validate_config` accepts a loaded config exactly when the
fields `actions` and `steps` are both present and are lists and
`enabled_steps`, when present, is a dict; the step list may be empty, no
other field is required, and the mask's values are not type-checked. -/
theorem validate_config_characterized (config : List (String × Store.PyVal)) :
    Store.validateConfig config = true ↔
      (∃ xs, Py.dictGet config "actions" = some (Store.PyVal.pyList xs)) ∧
      (∃ ys, Py.dictGet config "steps" = some (Store.PyVal.pyList ys)) ∧
      (∀ v, Py.dictGet config "enabled_steps" = some v →
        Store.isPyDict v = true) := by
  unfold Store.validateConfig
  rcases hA : Py.dictGet config "actions" with _ | a
  · simp
  · rcases hS : Py.dictGet config "steps" with _ | s
    · simp
    · rcases hE : Py.dictGet config "enabled_steps" with _ | e <;>
        cases a <;> cases s <;>
        simp [Store.isPyList, Store.isPyDict]

/-- C10: every device-targeted Device Manager operation called with an id
absent from the roster returns its failure value and leaves the device map
untouched (the existence check precedes every collaborator call, so no
exception can arise before the early return). -/
theorem unknown_device_operations_fail (devices : DevMgr.Devices)
    (deviceId : String) (cEnv : DevMgr.ConnectEnv)
    (adbDisc adbTap adbText adbRestart : Py.CallResult Bool)
    (adbShot : Py.CallResult (Option String))
    (adbExec : Py.CallResult (Bool × String × String))
    (x y : Int) (desc : Option String) (packageName : String)
    (hid : Py.dictGet devices deviceId = none) :
    DevMgr.connectDevice cEnv devices deviceId = (false, devices) ∧
    DevMgr.disconnectDevice adbDisc devices deviceId = (false, devices) ∧
    DevMgr.inputTap adbTap devices deviceId x y desc = (false, devices) ∧
    DevMgr.inputText adbText devices deviceId desc = (false, devices) ∧
    DevMgr.restartApp adbRestart devices deviceId packageName desc = (false, devices) ∧
    DevMgr.takeScreenshotDM adbShot devices deviceId = (none, devices) ∧
    DevMgr.executeAdbCommand adbExec devices deviceId desc =
      ((false, "", "Устройство не найдено в списке"), devices) := by
  refine ⟨?_, ?_, ?_, ?_, ?_, ?_, ?_⟩ <;>
    simp [DevMgr.connectDevice, DevMgr.disconnectDevice, DevMgr.inputTap,
      DevMgr.inputText, DevMgr.restartApp, DevMgr.takeScreenshotDM,
      DevMgr.executeAdbCommand, hid]

/-- Witness for the C10 theorem at a concrete input. -/
theorem unknown_device_operations_fail_witness :
    DevMgr.connectDevice DevMgr.connEnvOk [] "10.0.0.1:5555" = (false, []) :=
  (unknown_device_operations_fail [] "10.0.0.1:5555" DevMgr.connEnvOk
    (.ok true) (.ok true) (.ok true) (.ok true) (.ok none) (.ok (true, "", ""))
    1 2 none "com.example.app" rfl).1

/-- C5 counterexample: the claim says `find_all_templates` zeroes exactly a
`w×h` region centered on each match.  The code zeroes
`result[y-h//2 : y+h//2+h, x-w//2 : x+w//2+w]` (image_processor.py line
290), a roughly `2h×2w` region; on a 5×5 score matrix with a 2×2 template,
a best match at `(1, 1)` and a second above-threshold score at `(3, 3)`,
the code's run suppresses the second score and returns one match, while
the claimed `w×h` suppression would return two. -/
theorem find_all_suppression_differs :
    (Img.findAllTemplates Img.exampleMat 2 2 5 10).length = 1 ∧
      (Img.findAllClaimed Img.exampleMat 2 2 5 10).length = 2 := by
  set_option maxRecDepth 4096 in decide

/-- Index view of `mapWithIdx`. -/
theorem mapWithIdx_getElem? {α β : Type} (f : Nat → α → β) (l : List α)
    (i j : Nat) : (Img.mapWithIdx f i l)[j]? = (l[j]?).map (f (i + j)) := by
  induction l generalizing i j with
  | nil => simp [Img.mapWithIdx]
  | cons a t ih =>
    cases j with
    | zero => simp [Img.mapWithIdx]
    | succ j' =>
      have h1 : i + (j' + 1) = (i + 1) + j' := by omega
      simp only [Img.mapWithIdx, List.getElem?_cons_succ, h1]
      exact ih (i + 1) j'

/-- A non-negative numpy slice bound is below an in-range index exactly
when its integer value is. -/
theorem npNorm_le_iff (i : Int) (n j : Nat) (hi : 0 ≤ i) (hj : j < n) :
    (Img.npNorm i n ≤ j ↔ i ≤ (j : Int)) := by
  unfold Img.npNorm
  split <;> omega

/-- An in-range index is below a non-negative numpy slice bound exactly
when it is below its integer value. -/
theorem npNorm_lt_iff (i : Int) (n j : Nat) (hi : 0 ≤ i) (hj : j < n) :
    (j < Img.npNorm i n ↔ (j : Int) < i) := by
  unfold Img.npNorm
  split <;> omega

/-- Entry view of the numpy slice assignment: an in-range entry is zeroed
exactly when its row and column fall inside the normalized bounds. -/
theorem entryAt_sliceAssignZero (res : Img.ScoreMat) (r0 r1 c0 c1 : Int)
    (r c : Nat) (hr : r < res.length) (hc : c < (res.getD r []).length) :
    Img.entryAt (Img.sliceAssignZero res r0 r1 c0 c1) r c =
      (if Img.npNorm r0 res.length ≤ r ∧ r < Img.npNorm r1 res.length ∧
          Img.npNorm c0 (res.getD r []).length ≤ c ∧
          c < Img.npNorm c1 (res.getD r []).length
       then 0 else Img.entryAt res r c) := by
  have hrow : res[r]? = some res[r] := List.getElem?_eq_getElem hr
  have hgd : res.getD r [] = res[r] := by simp [List.getD, hrow]
  have hc' : c < res[r].length := hgd ▸ hc
  have hcel : res[r][c]? = some res[r][c] := List.getElem?_eq_getElem hc'
  have hent : Img.entryAt res r c = res[r][c] := by
    simp [Img.entryAt, List.getD, hrow, hcel]
  rw [hent, hgd]
  have hx : Img.entryAt (Img.sliceAssignZero res r0 r1 c0 c1) r c =
      ((if Img.npNorm r0 res.length ≤ r ∧ r < Img.npNorm r1 res.length then
          Img.mapWithIdx
            (fun cc v =>
              if Img.npNorm c0 res[r].length ≤ cc ∧ cc < Img.npNorm c1 res[r].length
              then (0 : ℚ) else v)
            0 res[r]
        else res[r])[c]?).getD 0 := by
    simp [Img.entryAt, Img.sliceAssignZero, List.getD, mapWithIdx_getElem?, hrow]
  rw [hx]
  by_cases hout : Img.npNorm r0 res.length ≤ r ∧ r < Img.npNorm r1 res.length
  · rw [if_pos hout, mapWithIdx_getElem?, hcel]
    simp only [Option.map_some', Option.getD_some, Nat.zero_add]
    by_cases hin : Img.npNorm c0 res[r].length ≤ c ∧ c < Img.npNorm c1 res[r].length
    · rw [if_pos hin, if_pos ⟨hout.1, hout.2, hin.1, hin.2⟩]
    · rw [if_neg hin, if_neg (fun hb => hin ⟨hb.2.2.1, hb.2.2.2⟩)]
  · rw [if_neg hout, hcel, if_neg (fun hb => hout ⟨hb.1, hb.2.1⟩)]
    rfl

/-- C5 amended: after recording a match at `(x, y)`, the loop zeroes the
region of rows `y - h/2` up to (excluding) `y + h/2 + h` and columns
`x - w/2` up to (excluding) `x + w/2 + w` — a window of roughly `2h×2w`
extending `h` further down and `w` further right than a `w×h` window
centered on the match — then repeats; stated entrywise for a match away
from the top and left edges (where numpy's negative-index wrap-around
would intrude). -/
theorem suppress_region_amended (res : Img.ScoreMat) (x y w h r c : Nat)
    (hy : h / 2 ≤ y) (hx : w / 2 ≤ x)
    (hr : r < res.length) (hc : c < (res.getD r []).length) :
    Img.entryAt (Img.suppressFound res x y w h) r c =
      (if y - h / 2 ≤ r ∧ r < y + h / 2 + h ∧ x - w / 2 ≤ c ∧ c < x + w / 2 + w
       then 0 else Img.entryAt res r c) := by
  have hL1 : Img.npNorm ((y : Int) - ((h / 2 : Nat) : Int)) res.length ≤ r ↔
      y - h / 2 ≤ r := by
    rw [npNorm_le_iff _ _ _ (by omega) hr]; omega
  have hL2 : r < Img.npNorm ((y : Int) + ((h / 2 : Nat) : Int) + (h : Int))
      res.length ↔ r < y + h / 2 + h := by
    rw [npNorm_lt_iff _ _ _ (by omega) hr]; omega
  have hL3 : Img.npNorm ((x : Int) - ((w / 2 : Nat) : Int))
      (res.getD r []).length ≤ c ↔ x - w / 2 ≤ c := by
    rw [npNorm_le_iff _ _ _ (by omega) hc]; omega
  have hL4 : c < Img.npNorm ((x : Int) + ((w / 2 : Nat) : Int) + (w : Int))
      (res.getD r []).length ↔ c < x + w / 2 + w := by
    rw [npNorm_lt_iff _ _ _ (by omega) hc]; omega
  unfold Img.suppressFound
  rw [entryAt_sliceAssignZero res _ _ _ _ r c hr hc]
  exact if_congr (and_congr hL1 (and_congr hL2 (and_congr hL3 hL4))) rfl rfl

/-- Witness for the C5 amended theorem at a concrete input: the entry at
row 3, column 3 lies outside a centered 2×2 window around the match at
`(1, 1)` yet inside the code's suppressed region, so it is zeroed. -/
theorem suppress_region_amended_witness :
    Img.entryAt (Img.suppressFound Img.exampleMat 1 1 2 2) 3 3 =
      (if 1 - 2 / 2 ≤ 3 ∧ 3 < 1 + 2 / 2 + 2 ∧ 1 - 2 / 2 ≤ 3 ∧ 3 < 1 + 2 / 2 + 2
       then 0 else Img.entryAt Img.exampleMat 3 3) :=
  suppress_region_amended Img.exampleMat 1 1 2 2 3 3 (by decide) (by decide)
    (by decide) (by decide)
